import Mathlib

/-!
Verification of the visitor-app backend (Node/Express over Azure SQL).

Shallow embedding conventions:
* Timestamps (`DATETIMEOFFSET` columns, JS `Date.getTime()` values) are `Int`
  milliseconds since the Unix epoch.
* A table is a `List` of rows; `IDENTITY(1,1)` columns are modelled by
  per-table counters carried in the `DB` state.
* The descriptive snapshot columns of `visits` (known_as, address,
  phone_number, unit, reason_for_visit, type, company_name,
  mandatory_acknowledgment_taken) are never mentioned by any claim and are
  omitted from the row type.
* `azureSqlService.executeQuery` returns `result.recordset` only
  (azureSqlService.js line 73).  For a statement that produces no result set
  (DELETE / UPDATE / INSERT without an OUTPUT clause) the mssql driver leaves
  `result.recordset` undefined, so the caller receives JS `undefined`;
  reading a property of it throws a TypeError.  This is modelled by
  `JsResultValue` below.
-/

namespace VisitorApp

/-- Row of the `visitors` table (azure_schema_creation.sql): id, first_name,
last_name, photo_path (nullable), is_banned.  `created_at` is never read by
any code a claim mentions and is omitted. -/
structure Visitor where
  id : Nat
  first_name : String
  last_name : String
  photo_path : Option String
  is_banned : Bool
deriving DecidableEq, Repr

/-- Row of the `visits` table: id, visitor_id, entry_time, exit_time
(NULL while the visitor is on site).  Descriptive snapshot columns omitted
(no claim mentions them). -/
structure Visit where
  id : Nat
  visitor_id : Nat
  entry_time : Int
  exit_time : Option Int
deriving DecidableEq, Repr

/-- Row of the `dependents` table: id, full_name, age (nullable), visit_id. -/
structure Dependent where
  id : Nat
  full_name : String
  age : Option Int
  visit_id : Nat
deriving DecidableEq, Repr

/-- Row of the `audit_logs` table as written by the compliance job
(part_002, the `INSERT INTO audit_logs` statement): event_name, status and
the three deletion counters.  The timestamp column is never read back and is
omitted. -/
structure AuditRow where
  eventName : String
  status : String
  profilesDeleted : Nat
  visitsDeleted : Nat
  dependentsDeleted : Nat
deriving DecidableEq, Repr

/-- The database state: the four relations plus the IDENTITY counters of the
three tables whose new ids the application reads back (SCOPE_IDENTITY). -/
structure DB where
  visitors : List Visitor
  visits : List Visit
  dependents : List Dependent
  audit_logs : List AuditRow
  nextVisitorId : Nat
  nextVisitId : Nat
  nextDependentId : Nat
deriving DecidableEq, Repr

/-! ## The persistence gateway as the routers observe it

`executeQuery` returns `result.recordset` only.  A router that reads
`result.rowsAffected` off that value gets:
* a thrown TypeError when the statement produced no result set (the returned
  value is `undefined`), or
* JS `undefined` (falsy) when the statement did produce a recordset (an
  array has no `rowsAffected` property).
-/

/-- The JS value a caller of `executeQuery` receives, abstracted to the one
property the cleanup job and the ban/unban routers read.  `undefined` is JS
`undefined`; `value ra` is a defined value whose `rowsAffected` property is
`ra` — the mssql `rowsAffected` array is modelled by its first element
(it is never empty when present). -/
inductive JsResultValue where
  | undefined
  | value (rowsAffected : Option Nat)
deriving DecidableEq, Repr

/-- Message of the TypeError thrown by a property read on `undefined`. -/
def undefinedReadError : String :=
  "TypeError: Cannot read properties of undefined - reading rowsAffected"

/-- Evaluation of `result.rowsAffected ? result.rowsAffected[0] : 0`
(clean_data, part_002 lines 239, 247, 259): throws on `undefined`, yields 0
when the property is absent (falsy), else the first affected-row count. -/
def readRowsAffectedCount : JsResultValue → Except String Nat
  | .undefined => .error undefinedReadError
  | .value none => .ok 0
  | .value (some n) => .ok n

/-- Evaluation of `result.rowsAffected && result.rowsAffected[0] === 0`
(ban.js line 37, unban part_003 line 48): throws on `undefined`; otherwise
the boolean deciding the 404 branch. -/
def rowsAffectedIsZero : JsResultValue → Except String Bool
  | .undefined => .error undefinedReadError
  | .value none => .ok false
  | .value (some n) => .ok (n == 0)

/-- What one `executeQuery` call resolves to, from the caller's point of
view: either the promise rejects with an error message, or it resolves to a
JS value. -/
inductive QueryOutcome where
  | throws (msg : String)
  | resolves (v : JsResultValue)
deriving DecidableEq, Repr

/-! ## Retention Compliance Job (`runDataComplianceCleanup`, part_002) -/

/-- Outcomes of the four `executeQuery` calls the cleanup job can issue, in
source order: the three DELETE steps and the audit INSERT. -/
structure CleanupGateway where
  deleteDependents : QueryOutcome
  deleteVisits : QueryOutcome
  deleteVisitors : QueryOutcome
  auditInsert : QueryOutcome
deriving DecidableEq, Repr

/-- One `executeQuery` invocation issued by the cleanup job. -/
inductive CleanupCall where
  | deleteDependents
  | deleteVisits
  | deleteVisitors
  | auditInsert (row : AuditRow)
deriving DecidableEq, Repr

/-- Result of a run of the cleanup job: the calls it issued in order, whether
the audit INSERT rejected (that rejection is caught and only logged), and the
argument passed to the completion callback. -/
structure CleanupRun where
  calls : List CleanupCall
  auditWriteFailed : Bool
  callbackArg : String
deriving DecidableEq, Repr

/-- `await executeQuery(...)` followed by
`counts.x = result.rowsAffected ? result.rowsAffected[0] : 0`: the step
fails if the promise rejects or the property read throws. -/
def cleanupStep (o : QueryOutcome) : Except String Nat :=
  match o with
  | .throws e => .error e
  | .resolves v => readRowsAffectedCount v

/-- The try block of `runDataComplianceCleanup`: the three DELETE steps in
order, stopping at the first failure.  Returns the accumulated
(dependents, visits, profiles) counts, the calls issued, and the caught
error message if any. -/
def cleanupTryBlock (g : CleanupGateway) :
    (Nat × Nat × Nat) × List CleanupCall × Option String :=
  match cleanupStep g.deleteDependents with
  | .error e => ((0, 0, 0), [.deleteDependents], some e)
  | .ok d =>
    match cleanupStep g.deleteVisits with
    | .error e => ((d, 0, 0), [.deleteDependents, .deleteVisits], some e)
    | .ok v =>
      match cleanupStep g.deleteVisitors with
      | .error e =>
          ((d, v, 0), [.deleteDependents, .deleteVisits, .deleteVisitors], some e)
      | .ok p =>
          ((d, v, p), [.deleteDependents, .deleteVisits, .deleteVisitors], none)

/-- `runDataComplianceCleanup` (part_002 lines 211-297): the try block, then
the finally block, which always attempts exactly one audit INSERT carrying
status OK / ERROR and the accumulated counts, catches a failure of that
insert, and finally invokes the callback with the (possibly empty) error
message.  The function is total: nothing propagates to the caller. -/
def runDataComplianceCleanup (g : CleanupGateway) : CleanupRun :=
  let r := cleanupTryBlock g
  let counts := r.1
  let calls := r.2.1
  let auditStatus := match r.2.2 with | none => "OK" | some _ => "ERROR"
  let auditEvent := match r.2.2 with
    | none => "Compliance Cleanup Succeeded"
    | some _ => "Compliance Cleanup Failed"
  let errorMessage := match r.2.2 with | none => "" | some e => e
  let row : AuditRow :=
    { eventName := auditEvent, status := auditStatus,
      profilesDeleted := counts.2.2, visitsDeleted := counts.2.1,
      dependentsDeleted := counts.1 }
  let auditFailed := match g.auditInsert with
    | .throws _ => true
    | .resolves _ => false
  { calls := calls ++ [.auditInsert row],
    auditWriteFailed := auditFailed,
    callbackArg := errorMessage }

/-- The audit rows among a run's issued calls. -/
def auditRowsOf (r : CleanupRun) : List AuditRow :=
  r.calls.filterMap fun c =>
    match c with
    | .auditInsert row => some row
    | _ => none

/-! ## Semantics of the cleanup job's SQL statements on the database state -/

/-- The retention threshold: `new Date(Date.now() - 2 * 365 * 24 * 60 * 60 * 1000)`
(part_002 line 219). -/
def retentionCutoff (now : Int) : Int :=
  now - 2 * 365 * 24 * 60 * 60 * 1000

/-- `DELETE FROM dependents WHERE visit_id IN (SELECT id FROM visits WHERE
entry_time < @twoYearsAgo)` (part_002 lines 227-232). -/
def deleteExpiredDependents (db : DB) (cutoff : Int) : DB :=
  { db with dependents := db.dependents.filter fun d =>
      ! db.visits.any fun v => v.id == d.visit_id && decide (v.entry_time < cutoff) }

/-- `DELETE FROM visits WHERE entry_time < @twoYearsAgo` (part_002 line 243). -/
def deleteExpiredVisits (db : DB) (cutoff : Int) : DB :=
  { db with visits := db.visits.filter fun v => ! decide (v.entry_time < cutoff) }

/-- `DELETE FROM visitors WHERE id NOT IN (SELECT visitor_id FROM visits)
AND is_banned = 0` (part_002 lines 251-255): a visitor row survives iff some
visit still references it or it is banned. -/
def deleteInactiveVisitors (db : DB) : DB :=
  { db with visitors := db.visitors.filter fun p =>
      db.visits.any (fun v => v.visitor_id == p.id) || p.is_banned }

/-- The three delete statements applied in the source's order. -/
def cleanupDeletes (db : DB) (cutoff : Int) : DB :=
  deleteInactiveVisitors (deleteExpiredVisits (deleteExpiredDependents db cutoff) cutoff)

/-- Rows the dependents DELETE statement removes from `db`. -/
def dependentsDeletedBy (db : DB) (cutoff : Int) : Nat :=
  db.dependents.length - (deleteExpiredDependents db cutoff).dependents.length

/-! ## The cleanup job composed with the real gateway

Each of the job's statements is DML without an OUTPUT clause, so
`executeQuery` (which returns `result.recordset` only) hands the job JS
`undefined` for every call: the gateway outcome of every statement the job
issues is `.resolves .undefined`. -/

/-- The outcomes the job observes when wired to `azureSqlService.executeQuery`. -/
def azureCleanupGateway : CleanupGateway :=
  { deleteDependents := .resolves .undefined
    deleteVisits := .resolves .undefined
    deleteVisitors := .resolves .undefined
    auditInsert := .resolves .undefined }

/-- State effect of one issued cleanup statement. -/
def applyCleanupCall (cutoff : Int) (db : DB) : CleanupCall → DB
  | .deleteDependents => deleteExpiredDependents db cutoff
  | .deleteVisits => deleteExpiredVisits db cutoff
  | .deleteVisitors => deleteInactiveVisitors db
  | .auditInsert row => { db with audit_logs := db.audit_logs ++ [row] }

/-- A run of `runDataComplianceCleanup(dbService, ...)` with the real
`azureSqlService` gateway: the statements that actually get issued mutate the
database in order, and the control flow observes `undefined` results. -/
def runCleanupAzure (db : DB) (cutoff : Int) : DB × CleanupRun :=
  let run := runDataComplianceCleanup azureCleanupGateway
  (run.calls.foldl (applyCleanupCall cutoff) db, run)

/-! ## Ban / Unban routers (ban.js, part_003) -/

/-- An HTTP response, reduced to status code and the message string the
router puts in the JSON body. -/
structure HttpResponse where
  status : Nat
  message : String
deriving DecidableEq, Repr

/-- `UPDATE visitors SET is_banned = 1 WHERE id = @visitorId` (ban.js lines 23-27). -/
def banUpdate (db : DB) (visitorId : Nat) : DB :=
  { db with visitors := db.visitors.map fun p =>
      if p.id == visitorId then { p with is_banned := true } else p }

/-- `UPDATE visitors SET is_banned = 0 WHERE id = @visitorId` (part_003 line 38). -/
def unbanUpdate (db : DB) (visitorId : Nat) : DB :=
  { db with visitors := db.visitors.map fun p =>
      if p.id == visitorId then { p with is_banned := false } else p }

/-- The value `executeQuery` returns for an UPDATE statement: the statement
produces no result set, so `result.recordset` is undefined. -/
def executeQueryDmlReturn : JsResultValue := .undefined

/-- POST /ban-visitor/:id (ban.js lines 14-49) for a numeric id, composed
with the real `executeQuery`: the UPDATE is executed, then the router reads
`result.rowsAffected` off the returned value inside the try block; the 404
branch fires when that condition holds, otherwise 200; a thrown error is
caught and answered with 500. -/
def banVisitorHandler (db : DB) (visitorId : Nat) : DB × HttpResponse :=
  let db1 := banUpdate db visitorId
  match rowsAffectedIsZero executeQueryDmlReturn with
  | .error _ =>
      (db1, { status := 500,
              message := "A database error occurred while trying to ban the visitor." })
  | .ok true => (db1, { status := 404, message := "Visitor not found." })
  | .ok false =>
      (db1, { status := 200, message := "Visitor has been banned & signed out." })

/-- POST /unban-visitor/:id (part_003 lines 18-58) for a numeric id and the
correct master password, composed with the real `executeQuery`. -/
def unbanVisitorHandler (db : DB) (visitorId : Nat)
    (password masterPassword : String) : DB × HttpResponse :=
  if password ≠ masterPassword then
    (db, { status := 403, message := "Incorrect password." })
  else
    let db1 := unbanUpdate db visitorId
    match rowsAffectedIsZero executeQueryDmlReturn with
    | .error e => (db1, { status := 500, message := "Database error: " ++ e })
    | .ok true => (db1, { status := 404, message := "Visitor not found." })
    | .ok false =>
        (db1, { status := 200, message := "Visitor has been unbanned successfully." })

/-- Modelled from the spec: the ActiveRoster read (`createVisitorsRouter`,
GET /visitors) is not under src/ — only its test file is.  Per the spec it
returns all Visitor times Visit pairs whose visit has null exit_time; its
test asserts the query contains `WHERE T2.exit_time IS NULL` and that banned
visitors still appear. -/
def activeRoster (db : DB) : List (Visitor × Visit) :=
  (db.visits.filter fun v => v.exit_time == none).filterMap fun v =>
    (db.visitors.find? fun p => p.id == v.visitor_id).map fun p => (p, v)

/-! ## Registration router (`createRegistrationRouter`, part_000) -/

/-- A dependent as supplied by the client inside the dependents JSON array. -/
structure DependentInput where
  full_name : String
  age : Option Int
deriving DecidableEq, Repr

/-- The `additional_dependents` form field together with the outcome of
`JSON.parse` on it: `absent` when the field is falsy (missing or the empty
string), `invalid raw` when the non-empty string makes `JSON.parse` throw,
`parsed deps` when it parses to an array. -/
inductive DependentsField where
  | absent
  | invalid (raw : String)
  | parsed (deps : List DependentInput)
deriving DecidableEq, Repr

/-- Whether the field would survive the registration route's strict
`JSON.parse` (part_000 lines 142-148): everything except `invalid`. -/
def DependentsField.wellFormed : DependentsField → Bool
  | .invalid _ => false
  | _ => true

/-- The dependent rows the registration route inserts for the field. -/
def DependentsField.toList : DependentsField → List DependentInput
  | .parsed deps => deps
  | _ => []

/-- Registration request body, reduced to the columns the model keeps.
`mandatory_acknowledgment_taken` and the other snapshot fields are omitted
with the snapshot columns themselves. -/
structure RegisterInput where
  first_name : String
  last_name : String
  photo_path : Option String
  additional_dependents : DependentsField
deriving DecidableEq, Repr

/-- `INSERT INTO dependents (full_name, age, visit_id) VALUES ...` for one
dependent: consumes the dependents IDENTITY counter. -/
def insertDependentRow (visitId : Nat) (name : String) (age : Option Int)
    (db : DB) : DB :=
  { db with
    dependents := db.dependents ++ [{ id := db.nextDependentId, full_name := name,
                                      age := age, visit_id := visitId }],
    nextDependentId := db.nextDependentId + 1 }

/-- The registration route's dependents loop (part_000 lines 159-175): one
INSERT per array element, full_name and age taken as supplied. -/
def insertAllDependents (visitId : Nat) (deps : List DependentInput) (db : DB) : DB :=
  deps.foldl (fun acc dep => insertDependentRow visitId dep.full_name dep.age acc) db

/-- Response of POST /register-visitor. -/
inductive RegisterResponse where
  | created (id visitId : Nat)
  | duplicate (message : String)
  | serverError (detail : String)
deriving DecidableEq, Repr

/-- HTTP status of a registration response (201 / 409 / 500, part_000
lines 56, 182, 214). -/
def RegisterResponse.httpStatus : RegisterResponse → Nat
  | .created _ _ => 201
  | .duplicate _ => 409
  | .serverError _ => 500

/-- `SELECT id FROM visitors WHERE first_name = @first_name AND
last_name = @last_name` (part_000 line 42): the duplicate pre-check read. -/
def duplicateCheck (db : DB) (fn ln : String) : List Visitor :=
  db.visitors.filter fun p => p.first_name == fn && p.last_name == ln

/-- Whether the injected dbService exposes `getPool`.  The registration
route calls `dbService.getPool()` at part_000 line 61, but the repository
gateway exports only `connectDb`, `executeQuery`, `logAudit` and `sqlTypes`
(azureSqlService.js lines 109-114) — no `getPool` — and server.js passes
that gateway, so for the shipped program this is false. -/
def azureServiceHasGetPool : Bool := false

/-- Message of the TypeError thrown by calling the absent
`dbService.getPool` member (JS: calling `undefined`). -/
def getPoolCallError : String := "dbService.getPool is not a function"

/-- POST /register-visitor (part_000 lines 19-220), parameterised by
whether the injected dbService exposes `getPool`: duplicate pre-check
through `executeQuery` (whose recordset-array return matches what line 54
reads), then `const pool = dbService.getPool()`.  When the member is absent
that call throws; the route's catch has no transaction to roll back and
answers 500 with the TypeError as detail.  With a pool available: one
transaction inserting the visitor row, the visit row (entry_time = now,
exit_time null) and the dependent rows — modelled as direct state updates
with rollback = returning the pre-transaction state; unparseable dependents
JSON (line 147) aborts the transaction with a 500. -/
def registerVisitorHandler (hasGetPool : Bool) (db : DB) (now : Int)
    (inp : RegisterInput) : DB × RegisterResponse :=
  let existing := duplicateCheck db inp.first_name inp.last_name
  if existing.length > 0 then
    (db, .duplicate ("A visitor named " ++ inp.first_name ++ " " ++ inp.last_name
      ++ " already exists. Please use the search bar to log them in."))
  else if hasGetPool then
    let visitorId := db.nextVisitorId
    let db1 : DB :=
      { db with
        visitors := db.visitors ++ [{ id := visitorId, first_name := inp.first_name,
                                      last_name := inp.last_name,
                                      photo_path := inp.photo_path,
                                      is_banned := false }],
        nextVisitorId := visitorId + 1 }
    let visitId := db1.nextVisitId
    let db2 : DB :=
      { db1 with
        visits := db1.visits ++ [{ id := visitId, visitor_id := visitorId,
                                   entry_time := now, exit_time := none }],
        nextVisitId := visitId + 1 }
    match inp.additional_dependents with
    | .invalid _ => (db, .serverError "Invalid dependents JSON format.")
    | .absent => (db2, .created visitorId visitId)
    | .parsed deps => (insertAllDependents visitId deps db2, .created visitorId visitId)
  else
    (db, .serverError getPoolCallError)

/-! ## Sign-out router (`createLogoutRouter`, logout.js) -/

/-- `SELECT TOP 1 ... FROM visits T1 JOIN visitors T2 ON T1.visitor_id =
T2.id WHERE T1.visitor_id = @visitorId AND T1.exit_time IS NULL ORDER BY
T1.entry_time DESC` (logout.js lines 21-30): the open visits of the visitor
that join to an existing visitor row. -/
def openVisitsOf (db : DB) (visitorId : Nat) : List Visit :=
  db.visits.filter fun v =>
    v.visitor_id == visitorId && v.exit_time == none
      && db.visitors.any fun p => p.id == v.visitor_id

/-- `TOP 1 ... ORDER BY entry_time DESC`: the row with the latest
entry_time (first such row on ties). -/
def selectLatest (l : List Visit) : Option Visit :=
  l.foldl
    (fun acc v =>
      match acc with
      | none => some v
      | some w => if v.entry_time > w.entry_time then some v else some w)
    none

/-- POST /exit-visitor/:id (logout.js lines 14-76) composed with the real
`executeQuery` (the SELECT yields its recordset, an array; the UPDATE result
is never read): 404 when no open visit joins, otherwise `UPDATE visits SET
exit_time = @exitTime WHERE id = @visitId` on the found row and 200. -/
def exitVisitorHandler (db : DB) (visitorId : Nat) (now : Int) :
    DB × HttpResponse :=
  match selectLatest (openVisitsOf db visitorId) with
  | none => (db, { status := 404, message := "Visitor not found or already signed out." })
  | some active =>
      let db1 : DB :=
        { db with visits := db.visits.map fun v =>
            if v.id == active.id then { v with exit_time := some now } else v }
      let fullName := match db.visitors.find? fun p => p.id == visitorId with
        | some p => p.first_name ++ " " ++ p.last_name
        | none => ""
      (db1, { status := 200, message := fullName ++ " has been successfully signed out." })

/-! ## Missed-visit router (`createMissedVisitRouter`, record_missed_visit.js) -/

/-- Outcome of the validation portion of POST /record-missed-visit: either a
400 rejection answered before the try block that performs any database
access, or entry into that block with the validated entry time and the
current exit time. -/
inductive MissedVisitOutcome where
  | rejected (status : Nat) (message : String)
  | proceeded (entryTime exitTime : Int)
deriving DecidableEq, Repr

/-- Message of the missing-field rejection (record_missed_visit.js line 19). -/
def missingFieldMessage : String := "Missing visitor ID or required entry time."

/-- Message of the invalid/future-time rejection (record_missed_visit.js
lines 31-33). -/
def invalidTimeMessage : String :=
  "Invalid entry time. It must be a valid date/time and occur before the current exit time."

/-- Validation of POST /record-missed-visit (record_missed_visit.js lines
16-36).  `visitorId` is the body's number (0 models a falsy value), `raw`
the `pastEntryTime` string ("" models a falsy value), and `parsed` the value
of `new Date(raw).getTime()` — `none` when the date is invalid (NaN); note
`new Date("")` is invalid.  `now` is `Date.now()`.  Both time checks share
one branch and one message; database access starts only in the `proceeded`
case. -/
def recordMissedVisitValidation (visitorId : Nat) (raw : String)
    (parsed : Option Int) (now : Int) : MissedVisitOutcome :=
  if visitorId == 0 || raw == "" then
    .rejected 400 missingFieldMessage
  else
    match parsed with
    | none => .rejected 400 invalidTimeMessage
    | some t => if t ≥ now then .rejected 400 invalidTimeMessage else .proceeded t now

/-! ## Update-and-sign-in router (`createUpdateVisitorRouter`,
update_visitor_details.js)

The router is exercised against a gateway whose `executeQuery` resolves to
objects carrying a `recordset` (the contract its own tests mock); the
verification SELECT and the visit INSERT read `result.recordset`. -/

/-- JS `x || null` on a nullable number (update_visitor_details.js
line 101): null, undefined, 0 and NaN all collapse to null. -/
def jsOrNullInt (a : Option Int) : Option Int :=
  match a with
  | some v => if v = 0 then none else some v
  | none => none

/-- The update route's dependents loop (update_visitor_details.js lines
93-109): one INSERT per element, with the `dependent.age || null` coercion. -/
def insertAllDependentsCoerced (visitId : Nat) (deps : List DependentInput)
    (db : DB) : DB :=
  deps.foldl
    (fun acc dep => insertDependentRow visitId dep.full_name (jsOrNullInt dep.age) acc) db

/-- The route's dependents parsing (update_visitor_details.js lines 36-47):
a falsy field yields no dependents, a parse failure falls back to a single
dependent whose full_name is the raw string and whose age is null. -/
def updateParseDependents : DependentsField → List DependentInput
  | .absent => []
  | .invalid raw => [{ full_name := raw, age := none }]
  | .parsed deps => deps

/-- Response of POST /update-visitor-details. -/
inductive UpdateResponse where
  | badRequest (message : String)
  | notFound (message : String)
  | created (newVisitId : Nat)
  | serverError (message : String)
deriving DecidableEq, Repr

/-- HTTP status of an update response (400 / 404 / 201 / 500). -/
def UpdateResponse.httpStatus : UpdateResponse → Nat
  | .badRequest _ => 400
  | .notFound _ => 404
  | .created _ => 201
  | .serverError _ => 500

/-- Whether the `executeQuery` results the update route receives are full
result objects carrying a `recordset`.  The route reads
`visitorCheck.recordset.length` (update_visitor_details.js line 60) and
`visitResult.recordset[0]` (line 90) — the contract its own tests mock —
but the repository `executeQuery` returns the recordset array itself, on
which the `.recordset` read yields `undefined`, so for the shipped program
this is false. -/
def azureResultCarriesRecordset : Bool := false

/-- Message of the TypeError thrown by reading `.length` off the
`undefined` that `visitorCheck.recordset` evaluates to on a bare array. -/
def undefinedLengthReadError : String :=
  "TypeError: Cannot read properties of undefined - reading length"

/-- POST /update-visitor-details (update_visitor_details.js lines 15-130)
for a body with visitor id `id` (0 models a falsy value) and dependents
field `deps`, parameterised by whether `executeQuery` results carry a
`recordset`: parse dependents with fallback (before the try block), BEGIN
TRAN, then the verify SELECT.  When the result is the bare recordset array,
`visitorCheck.recordset.length` throws, the catch issues ROLLBACK TRAN and
answers 500 with nothing inserted.  Against the result-object contract:
verify the visitor id (404 + rollback when absent), insert the new visit
(entry_time = now, exit_time null) reading back SCOPE_IDENTITY, insert
every parsed dependent against the new visit id, COMMIT. -/
def updateVisitorHandler (resultObject : Bool) (db : DB) (now : Int) (id : Nat)
    (deps : DependentsField) : DB × UpdateResponse :=
  if id == 0 then
    (db, .badRequest "Visitor ID is required for re-registration.")
  else
    let dependentsArray := updateParseDependents deps
    if resultObject then
      let visitorCheck := db.visitors.filter fun p => p.id == id
      if visitorCheck.length == 0 then
        (db, .notFound "Visitor ID not found.")
      else
        let newVisitId := db.nextVisitId
        let db1 : DB :=
          { db with
            visits := db.visits ++ [{ id := newVisitId, visitor_id := id,
                                      entry_time := now, exit_time := none }],
            nextVisitId := newVisitId + 1 }
        let db2 := insertAllDependentsCoerced newVisitId dependentsArray db1
        (db2, .created newVisitId)
    else
      (db, .serverError ("Transaction failed: " ++ undefinedLengthReadError))

/-! ## History router (`createHistoryRouter`, the file embedded after
azure_schema_creation.sql) -/

/-- End-of-day expansion of an end_date (display_history line 159:
`endOfDay = end_date + "T23:59:59.999Z"`): the date's midnight instant
plus 23h 59m 59.999s in milliseconds. -/
def endOfDayMs (dateMidnight : Int) : Int :=
  dateMidnight + 86399999

/-- The WHERE clauses the history route adds for the date parameters
(display_history lines 153-162): `T2.entry_time >= @startDate` when
start_date is given and `T2.entry_time <= @endDate` with the end-of-day
expansion when end_date is given.  Dates are represented by their midnight
instant in milliseconds. -/
def historyDateFilter (startDate? endDate? : Option Int) (entry : Int) : Bool :=
  (match startDate? with
   | none => true
   | some s => decide (s ≤ entry))
  && (match endDate? with
      | none => true
      | some e => decide (entry ≤ endOfDayMs e))

/-- Whether a visit row passes the history route's date range filter. -/
def historyIncludesVisit (startDate? endDate? : Option Int) (v : Visit) : Bool :=
  historyDateFilter startDate? endDate? v.entry_time

/-- Days from 1970-01-01 to the given proleptic-Gregorian civil date
(used only to name concrete UTC instants in theorem statements). -/
def daysFromCivil (y m d : Int) : Int :=
  let y2 := if m ≤ 2 then y - 1 else y
  let era := (if 0 ≤ y2 then y2 else y2 - 399) / 400
  let yoe := y2 - era * 400
  let mp := (m + 9) % 12
  let doy := (153 * mp + 2) / 5 + d - 1
  let doe := yoe * 365 + yoe / 4 - yoe / 100 + doy
  era * 146097 + doe - 719468

/-- The UTC instant `y-m-d h:mi:s.ms` in milliseconds since the epoch. -/
def utcMs (y m d h mi s ms : Int) : Int :=
  ((daysFromCivil y m d * 24 + h) * 60 + mi) * 60000 + s * 1000 + ms

/-! # Theorems -/

/-- **C2.** For every outcome of the four statements the Retention Compliance
Job can issue: exactly one audit-entry write is attempted; on success it
carries status OK, event "Compliance Cleanup Succeeded" and the three step
counts, and the callback receives the empty string; on a failure at any
delete step it carries status ERROR and exactly the counts accumulated
before the failing step, and the callback receives the error message; a
failure of the audit write itself is only recorded (caught and logged), and
neither the issued statements nor the callback argument depend on the audit
write's outcome.  The job is a total function: it never throws to its
caller. -/
theorem claim_C2 (g : CleanupGateway) :
    (auditRowsOf (runDataComplianceCleanup g)).length = 1
    ∧ (∀ d v p, cleanupStep g.deleteDependents = Except.ok d →
        cleanupStep g.deleteVisits = Except.ok v →
        cleanupStep g.deleteVisitors = Except.ok p →
        auditRowsOf (runDataComplianceCleanup g)
            = [{ eventName := "Compliance Cleanup Succeeded", status := "OK",
                 profilesDeleted := p, visitsDeleted := v, dependentsDeleted := d }]
          ∧ (runDataComplianceCleanup g).callbackArg = "")
    ∧ (∀ e, cleanupStep g.deleteDependents = Except.error e →
        auditRowsOf (runDataComplianceCleanup g)
            = [{ eventName := "Compliance Cleanup Failed", status := "ERROR",
                 profilesDeleted := 0, visitsDeleted := 0, dependentsDeleted := 0 }]
          ∧ (runDataComplianceCleanup g).callbackArg = e)
    ∧ (∀ d e, cleanupStep g.deleteDependents = Except.ok d →
        cleanupStep g.deleteVisits = Except.error e →
        auditRowsOf (runDataComplianceCleanup g)
            = [{ eventName := "Compliance Cleanup Failed", status := "ERROR",
                 profilesDeleted := 0, visitsDeleted := 0, dependentsDeleted := d }]
          ∧ (runDataComplianceCleanup g).callbackArg = e)
    ∧ (∀ d v e, cleanupStep g.deleteDependents = Except.ok d →
        cleanupStep g.deleteVisits = Except.ok v →
        cleanupStep g.deleteVisitors = Except.error e →
        auditRowsOf (runDataComplianceCleanup g)
            = [{ eventName := "Compliance Cleanup Failed", status := "ERROR",
                 profilesDeleted := 0, visitsDeleted := v, dependentsDeleted := d }]
          ∧ (runDataComplianceCleanup g).callbackArg = e)
    ∧ ((runDataComplianceCleanup g).auditWriteFailed = true
        ↔ ∃ m, g.auditInsert = QueryOutcome.throws m)
    ∧ (∀ o, (runDataComplianceCleanup { g with auditInsert := o }).callbackArg
          = (runDataComplianceCleanup g).callbackArg
        ∧ (runDataComplianceCleanup { g with auditInsert := o }).calls
          = (runDataComplianceCleanup g).calls) := by
  have hAud : (runDataComplianceCleanup g).auditWriteFailed = true
      ↔ ∃ m, g.auditInsert = QueryOutcome.throws m := by
    cases ha : g.auditInsert with
    | throws m => simp [runDataComplianceCleanup, ha]
    | resolves v => simp [runDataComplianceCleanup, ha]
  have hInv : ∀ o, (runDataComplianceCleanup { g with auditInsert := o }).callbackArg
        = (runDataComplianceCleanup g).callbackArg
      ∧ (runDataComplianceCleanup { g with auditInsert := o }).calls
        = (runDataComplianceCleanup g).calls :=
    fun _ => ⟨rfl, rfl⟩
  rcases h1 : cleanupStep g.deleteDependents with e1 | d1
  · refine ⟨by simp [runDataComplianceCleanup, cleanupTryBlock, h1, auditRowsOf],
      ?_, ?_, ?_, ?_, hAud, hInv⟩
    · intro d v p hd _ _; exact absurd hd (by simp)
    · intro e he
      obtain rfl : e1 = e := by injection he
      simp [runDataComplianceCleanup, cleanupTryBlock, h1, auditRowsOf]
    · intro d e hd _; exact absurd hd (by simp)
    · intro d v e hd _ _; exact absurd hd (by simp)
  rcases h2 : cleanupStep g.deleteVisits with e2 | v2
  · refine ⟨by simp [runDataComplianceCleanup, cleanupTryBlock, h1, h2, auditRowsOf],
      ?_, ?_, ?_, ?_, hAud, hInv⟩
    · intro d v p _ hv _; exact absurd hv (by simp)
    · intro e he; exact absurd he (by simp)
    · intro d e hd he
      obtain rfl : d1 = d := by injection hd
      obtain rfl : e2 = e := by injection he
      simp [runDataComplianceCleanup, cleanupTryBlock, h1, h2, auditRowsOf]
    · intro d v e _ hv _; exact absurd hv (by simp)
  rcases h3 : cleanupStep g.deleteVisitors with e3 | p3
  · refine ⟨by simp [runDataComplianceCleanup, cleanupTryBlock, h1, h2, h3, auditRowsOf],
      ?_, ?_, ?_, ?_, hAud, hInv⟩
    · intro d v p _ _ hp; exact absurd hp (by simp)
    · intro e he; exact absurd he (by simp)
    · intro d e _ he; exact absurd he (by simp)
    · intro d v e hd hv he
      obtain rfl : d1 = d := by injection hd
      obtain rfl : v2 = v := by injection hv
      obtain rfl : e3 = e := by injection he
      simp [runDataComplianceCleanup, cleanupTryBlock, h1, h2, h3, auditRowsOf]
  · refine ⟨by simp [runDataComplianceCleanup, cleanupTryBlock, h1, h2, h3, auditRowsOf],
      ?_, ?_, ?_, ?_, hAud, hInv⟩
    · intro d v p hd hv hp
      obtain rfl : d1 = d := by injection hd
      obtain rfl : v2 = v := by injection hv
      obtain rfl : p3 = p := by injection hp
      simp [runDataComplianceCleanup, cleanupTryBlock, h1, h2, h3, auditRowsOf]
    · intro e he; exact absurd he (by simp)
    · intro d e _ he; exact absurd he (by simp)
    · intro d v e _ _ he; exact absurd he (by simp)

/-- Witness for C2 at a concrete gateway: the visits DELETE rejects after
the dependents step counted 2 rows, so the single audit row carries
(profiles 0, visits 0, dependents 2), status ERROR, and the callback gets
the error message. -/
theorem claim_C2_witness :
    auditRowsOf (runDataComplianceCleanup
        { deleteDependents := .resolves (.value (some 2)),
          deleteVisits := .throws "A DB connection error occurred.",
          deleteVisitors := .resolves (.value (some 3)),
          auditInsert := .resolves (.value none) })
      = [{ eventName := "Compliance Cleanup Failed", status := "ERROR",
           profilesDeleted := 0, visitsDeleted := 0, dependentsDeleted := 2 }]
    ∧ (runDataComplianceCleanup
        { deleteDependents := .resolves (.value (some 2)),
          deleteVisits := .throws "A DB connection error occurred.",
          deleteVisitors := .resolves (.value (some 3)),
          auditInsert := .resolves (.value none) }).callbackArg
      = "A DB connection error occurred." :=
  (claim_C2 _).2.2.2.1 2 "A DB connection error occurred." rfl rfl

/-- **C3.** The delete phase of the Retention Compliance Job, i.e. the three
statements in source order: a dependent survives iff no original visit row
with its visit_id is older than the two-year threshold; a visit survives iff
it is not older than the threshold; a visitor survives iff it is banned or
still referenced by a non-expired visit (so exactly the visit-less,
non-banned visitors are deleted, judged against the visits remaining after
step 2); a banned visitor is never deleted; a fresh visit and its dependents
are left unchanged (the dependents part uses the primary-key uniqueness of
visit ids). -/
theorem claim_C3 (db : DB) (now : Int)
    (hids : (db.visits.map Visit.id).Nodup) :
    (∀ d : Dependent, d ∈ (cleanupDeletes db (retentionCutoff now)).dependents ↔
        d ∈ db.dependents
          ∧ ¬ ∃ v ∈ db.visits, v.id = d.visit_id ∧ v.entry_time < retentionCutoff now)
    ∧ (∀ v : Visit, v ∈ (cleanupDeletes db (retentionCutoff now)).visits ↔
        v ∈ db.visits ∧ ¬ v.entry_time < retentionCutoff now)
    ∧ (∀ p : Visitor, p ∈ (cleanupDeletes db (retentionCutoff now)).visitors ↔
        p ∈ db.visitors
          ∧ (p.is_banned = true
              ∨ ∃ v ∈ db.visits, v.visitor_id = p.id ∧ ¬ v.entry_time < retentionCutoff now))
    ∧ (∀ p : Visitor, p ∈ db.visitors → p.is_banned = true →
        p ∈ (cleanupDeletes db (retentionCutoff now)).visitors)
    ∧ (∀ v : Visit, v ∈ db.visits → ¬ v.entry_time < retentionCutoff now →
        v ∈ (cleanupDeletes db (retentionCutoff now)).visits
          ∧ ∀ d : Dependent, d ∈ db.dependents → d.visit_id = v.id →
              d ∈ (cleanupDeletes db (retentionCutoff now)).dependents) := by
  set c := retentionCutoff now with hc
  have hdep : ∀ d : Dependent, d ∈ (cleanupDeletes db c).dependents ↔
      d ∈ db.dependents ∧ ¬ ∃ v ∈ db.visits, v.id = d.visit_id ∧ v.entry_time < c := by
    intro d
    simp [cleanupDeletes, deleteInactiveVisitors, deleteExpiredVisits,
      deleteExpiredDependents, List.mem_filter, List.any_eq_true]
  have hvis : ∀ v : Visit, v ∈ (cleanupDeletes db c).visits ↔
      v ∈ db.visits ∧ ¬ v.entry_time < c := by
    intro v
    simp [cleanupDeletes, deleteInactiveVisitors, deleteExpiredVisits,
      deleteExpiredDependents, List.mem_filter]
  have hvtr : ∀ p : Visitor, p ∈ (cleanupDeletes db c).visitors ↔
      p ∈ db.visitors
        ∧ (p.is_banned = true ∨ ∃ v ∈ db.visits, v.visitor_id = p.id ∧ ¬ v.entry_time < c) := by
    intro p
    simp only [cleanupDeletes, deleteInactiveVisitors, deleteExpiredVisits,
      deleteExpiredDependents, List.mem_filter, List.any_eq_true, List.mem_filter]
    constructor
    · rintro ⟨hp, hcond⟩
      refine ⟨hp, ?_⟩
      rcases Bool.or_eq_true_iff.mp hcond with h | h
      · obtain ⟨v, hv, hid⟩ := List.any_eq_true.mp h
        obtain ⟨hvm, hfresh⟩ := List.mem_filter.mp hv
        exact Or.inr ⟨v, hvm, by simpa using hid,
          by simpa using hfresh⟩
      · exact Or.inl h
    · rintro ⟨hp, h | ⟨v, hvm, hvid, hfresh⟩⟩
      · exact ⟨hp, by simp [h]⟩
      · refine ⟨hp, Bool.or_eq_true_iff.mpr (Or.inl ?_)⟩
        exact List.any_eq_true.mpr ⟨v, List.mem_filter.mpr ⟨hvm, by simpa using hfresh⟩,
          by simpa using hvid⟩
  refine ⟨hdep, hvis, hvtr, ?_, ?_⟩
  · intro p hp hb
    exact (hvtr p).mpr ⟨hp, Or.inl hb⟩
  · intro v hv hfresh
    refine ⟨(hvis v).mpr ⟨hv, hfresh⟩, ?_⟩
    intro d hd hdv
    refine (hdep d).mpr ⟨hd, ?_⟩
    rintro ⟨w, hwm, hwid, hwold⟩
    have : w = v := List.inj_on_of_nodup_map hids hwm hv (by rw [hwid, hdv])
    exact hfresh (this ▸ hwold)

/-- Concrete dataset for the C3 witness: a banned visitor with no visits, a
visitor with one fresh visit, and a non-banned visitor with one expired
visit that has one dependent.  The reference time is two years plus one
second after the epoch, so the retention cutoff is 1000 ms. -/
def dbC3 : DB :=
  { visitors := [{ id := 1, first_name := "Banned", last_name := "Visitor",
                   photo_path := none, is_banned := true },
                 { id := 2, first_name := "Fresh", last_name := "Visitor",
                   photo_path := none, is_banned := false },
                 { id := 3, first_name := "Old", last_name := "Visitor",
                   photo_path := none, is_banned := false }],
    visits := [{ id := 10, visitor_id := 2, entry_time := 5000, exit_time := none },
               { id := 11, visitor_id := 3, entry_time := 0, exit_time := some 1 }],
    dependents := [{ id := 100, full_name := "Old Kid", age := some 3, visit_id := 11 }],
    audit_logs := [],
    nextVisitorId := 4, nextVisitId := 12, nextDependentId := 101 }

/-- Reference time for the C3 witness. -/
def timeC3 : Int := 2 * 365 * 24 * 60 * 60 * 1000 + 1000

/-- Witness for C3: on `dbC3` the banned, visit-less visitor survives the
delete phase. -/
theorem claim_C3_witness :
    ({ id := 1, first_name := "Banned", last_name := "Visitor",
       photo_path := none, is_banned := true } : Visitor)
      ∈ (cleanupDeletes dbC3 (retentionCutoff timeC3)).visitors :=
  (claim_C3 dbC3 timeC3 (by decide)).2.2.2.1
    { id := 1, first_name := "Banned", last_name := "Visitor",
      photo_path := none, is_banned := true }
    (by simp [dbC3]) rfl

/-- Concrete dataset for C1: one non-banned visitor whose single visit is
older than the cutoff and carries one dependent. -/
def dbC1 : DB :=
  { visitors := [{ id := 1, first_name := "Old", last_name := "Guy",
                   photo_path := none, is_banned := false }],
    visits := [{ id := 10, visitor_id := 1, entry_time := 0, exit_time := some 1 }],
    dependents := [{ id := 100, full_name := "Kid", age := some 3, visit_id := 10 }],
    audit_logs := [],
    nextVisitorId := 2, nextVisitId := 11, nextDependentId := 101 }

/-- **C1** (the claim is false of the code; this theorem evaluates the job
at the failing input).  Running the job against the real gateway — whose
`executeQuery` returns only the recordset, hence `undefined` for a DELETE —
on a database where the dependents step really deletes 1 row: the property
read `result.rowsAffected` throws, so the single audit row records 0 for
every counter with status ERROR (not the actual count 1 with status OK as
the claim states), the expired visit is never even deleted, and the
callback receives the TypeError message. -/
theorem claim_C1 :
    dependentsDeletedBy dbC1 1000 = 1
    ∧ auditRowsOf (runCleanupAzure dbC1 1000).2
        = [{ eventName := "Compliance Cleanup Failed", status := "ERROR",
             profilesDeleted := 0, visitsDeleted := 0, dependentsDeleted := 0 }]
    ∧ (runCleanupAzure dbC1 1000).1.dependents = []
    ∧ (runCleanupAzure dbC1 1000).1.visits = dbC1.visits
    ∧ (runCleanupAzure dbC1 1000).1.audit_logs
        = [{ eventName := "Compliance Cleanup Failed", status := "ERROR",
             profilesDeleted := 0, visitsDeleted := 0, dependentsDeleted := 0 }]
    ∧ (runCleanupAzure dbC1 1000).2.callbackArg = undefinedReadError := by
  refine ⟨by decide, by decide, by decide, by decide, by decide, by decide⟩

/-- Concrete dataset for C5: exactly one visitor, with id 1. -/
def dbC5 : DB :=
  { visitors := [{ id := 1, first_name := "Ann", last_name := "Lee",
                   photo_path := none, is_banned := false }],
    visits := [], dependents := [], audit_logs := [],
    nextVisitorId := 2, nextVisitId := 1, nextDependentId := 1 }

/-- **C5** (the claim is false of the code; this theorem evaluates both
routes at the failing inputs).  With the real gateway the UPDATE statement
yields no recordset, so `executeQuery` hands the routers `undefined` and the
`result.rowsAffected` read throws: Ban and Unban answer 500 for every id —
404 is never returned for the missing id 999 and 200 is never returned for
the existing id 1 (whose banned flag the statement does flip before the
throw). -/
theorem claim_C5 :
    (banVisitorHandler dbC5 999).2.status = 500
    ∧ (banVisitorHandler dbC5 999).2.status ≠ 404
    ∧ (banVisitorHandler dbC5 1).2.status = 500
    ∧ (banVisitorHandler dbC5 1).2.status ≠ 200
    ∧ (banVisitorHandler dbC5 1).1.visitors
        = [{ id := 1, first_name := "Ann", last_name := "Lee",
             photo_path := none, is_banned := true }]
    ∧ (unbanVisitorHandler dbC5 999 "pw" "pw").2.status = 500
    ∧ (unbanVisitorHandler dbC5 999 "pw" "pw").2.status ≠ 404
    ∧ (unbanVisitorHandler dbC5 1 "pw" "pw").2.status = 500
    ∧ (unbanVisitorHandler dbC5 1 "pw" "pw").2.status ≠ 200 := by
  refine ⟨by decide, by decide, by decide, by decide, by decide, ?_, ?_, ?_, ?_⟩
    <;> simp [unbanVisitorHandler, rowsAffectedIsZero, executeQueryDmlReturn]

/-- The banned-flag update preserves ids, so `find?` by visitor id commutes
with it. -/
lemma find?_banMap (l : List Visitor) (bid c : Nat) :
    (l.map fun p => if p.id == bid then { p with is_banned := true } else p).find?
        (fun p => p.id == c)
      = (l.find? fun p => p.id == c).map fun p =>
          if p.id == bid then { p with is_banned := true } else p := by
  induction l with
  | nil => rfl
  | cons a l ih =>
      have hid : ((if a.id == bid then { a with is_banned := true } else a).id == c)
          = (a.id == c) := by
        split <;> rfl
      by_cases h : (a.id == c) = true
      · have h2 : List.find? (fun p => p.id == c) (a :: l) = some a :=
          List.find?_cons_of_pos _ h
        rw [List.map_cons, List.find?_cons_of_pos _ (by simp only [hid]; exact h), h2]
        rfl
      · have h2 : List.find? (fun p => p.id == c) (a :: l)
            = List.find? (fun p => p.id == c) l :=
          List.find?_cons_of_neg _ h
        rw [List.map_cons, List.find?_cons_of_neg _ (by simp only [hid]; exact h), h2]
        exact ih

/-- A roster row consists of an open visit and the visitor row `find?`
locates for it. -/
lemma rosterShape (db : DB) (pr : Visitor × Visit) (h : pr ∈ activeRoster db) :
    pr.2 ∈ db.visits.filter (fun v => v.exit_time == none)
    ∧ db.visitors.find? (fun p => p.id == pr.2.visitor_id) = some pr.1 := by
  obtain ⟨w, hw, hsome⟩ := List.mem_filterMap.mp h
  rcases hfind : db.visitors.find? fun p => p.id == w.visitor_id with _ | r
  · rw [hfind] at hsome; exact absurd hsome (by simp)
  · rw [hfind] at hsome
    obtain rfl : (r, w) = pr := by simpa using hsome
    exact ⟨hw, hfind⟩

/-- **C9.** Ban touches nothing but the banned flag of the matching
visitors row: the visits, dependents and audit tables are unchanged, the
roster's visits are exactly the same (a banned visitor with an open visit
stays on the roster, with the same visitor id), and the roster contains
only open visits (null exit_time) — a visit leaves it only when something
sets its exit_time, i.e. an explicit sign-out. -/
theorem claim_C9 (db : DB) (visitorId : Nat) :
    ((banVisitorHandler db visitorId).1.visits = db.visits)
    ∧ ((banVisitorHandler db visitorId).1.dependents = db.dependents)
    ∧ ((banVisitorHandler db visitorId).1.audit_logs = db.audit_logs)
    ∧ ((activeRoster (banVisitorHandler db visitorId).1).map Prod.snd
        = (activeRoster db).map Prod.snd)
    ∧ (∀ pr ∈ activeRoster db, ∃ q : Visitor,
        (q, pr.2) ∈ activeRoster (banVisitorHandler db visitorId).1 ∧ q.id = pr.1.id)
    ∧ (∀ pr ∈ activeRoster db, pr.2.exit_time = none) := by
  have hstate : (banVisitorHandler db visitorId).1 = banUpdate db visitorId := by
    simp [banVisitorHandler, rowsAffectedIsZero, executeQueryDmlReturn]
  rw [hstate]
  refine ⟨rfl, rfl, rfl, ?_, ?_, ?_⟩
  · simp only [activeRoster, banUpdate, List.map_filterMap]
    refine List.filterMap_congr fun v hv => ?_
    rw [find?_banMap]
    cases db.visitors.find? fun p => p.id == v.visitor_id <;> rfl
  · intro pr hpr
    obtain ⟨hfilt, hfind⟩ := rosterShape db pr hpr
    refine ⟨if pr.1.id == visitorId then { pr.1 with is_banned := true } else pr.1,
      List.mem_filterMap.mpr ⟨pr.2, by simpa [banUpdate] using hfilt, ?_⟩,
      by split <;> rfl⟩
    simp only [banUpdate]
    rw [find?_banMap, hfind]
    rfl
  · intro pr hpr
    have h := (rosterShape db pr hpr).1
    simpa using (List.mem_filter.mp h).2

/-- Concrete dataset for the C9 witness: a visitor with an open visit. -/
def dbC9 : DB :=
  { visitors := [{ id := 1, first_name := "On", last_name := "Site",
                   photo_path := none, is_banned := false }],
    visits := [{ id := 7, visitor_id := 1, entry_time := 50, exit_time := none }],
    dependents := [], audit_logs := [],
    nextVisitorId := 2, nextVisitId := 8, nextDependentId := 1 }

/-- Witness for C9: banning the signed-in visitor of `dbC9` leaves the
roster's visits unchanged. -/
theorem claim_C9_witness :
    (activeRoster (banVisitorHandler dbC9 1).1).map Prod.snd
      = (activeRoster dbC9).map Prod.snd :=
  (claim_C9 dbC9 1).2.2.2.1

/-- Empty database. -/
def dbEmpty : DB :=
  { visitors := [], visits := [], dependents := [], audit_logs := [],
    nextVisitorId := 1, nextVisitId := 1, nextDependentId := 1 }

/-- Register request for the C4 failing input. -/
def inpC4 : RegisterInput :=
  { first_name := "Jane", last_name := "Doe", photo_path := none,
    additional_dependents := .parsed [{ full_name := "Kid One", age := some 5 }] }

/-- **C4** (the claim is false of the shipped program; this theorem
evaluates the route at the failing input).  With the gateway server.js
injects — azureSqlService, which exports no `getPool` — the first Register
call for Jane Doe on the empty database throws at `dbService.getPool()`
(part_000 line 61) and answers 500 with no row written, so the second
identical call finds no duplicate and fails the same way: 500 again, never
the claimed 201 then 409.  With a pool-bearing service the route does
behave exactly as the claim states — 201 inserting the visitor, the visit
and the dependent, then a 409 duplicate with no new rows — so the defect is
precisely the absent `getPool`. -/
theorem claim_C4 :
    (registerVisitorHandler azureServiceHasGetPool dbEmpty 100 inpC4).2
        = .serverError getPoolCallError
    ∧ (registerVisitorHandler azureServiceHasGetPool dbEmpty 100 inpC4).2.httpStatus = 500
    ∧ (registerVisitorHandler azureServiceHasGetPool dbEmpty 100 inpC4).1 = dbEmpty
    ∧ (registerVisitorHandler azureServiceHasGetPool
        (registerVisitorHandler azureServiceHasGetPool dbEmpty 100 inpC4).1
        200 inpC4).2 = .serverError getPoolCallError
    ∧ (registerVisitorHandler azureServiceHasGetPool
        (registerVisitorHandler azureServiceHasGetPool dbEmpty 100 inpC4).1
        200 inpC4).2.httpStatus ≠ 409
    ∧ (registerVisitorHandler true dbEmpty 100 inpC4).2 = .created 1 1
    ∧ ({ id := 1, first_name := "Jane", last_name := "Doe", photo_path := none,
         is_banned := false } : Visitor)
        ∈ (registerVisitorHandler true dbEmpty 100 inpC4).1.visitors
    ∧ ({ id := 1, visitor_id := 1, entry_time := 100, exit_time := none } : Visit)
        ∈ (registerVisitorHandler true dbEmpty 100 inpC4).1.visits
    ∧ ({ id := 1, full_name := "Kid One", age := some 5, visit_id := 1 } : Dependent)
        ∈ (registerVisitorHandler true dbEmpty 100 inpC4).1.dependents
    ∧ (registerVisitorHandler true
        (registerVisitorHandler true dbEmpty 100 inpC4).1 200 inpC4).2.httpStatus = 409
    ∧ (registerVisitorHandler true
        (registerVisitorHandler true dbEmpty 100 inpC4).1 200 inpC4).1
        = (registerVisitorHandler true dbEmpty 100 inpC4).1 := by
  decide

/-- **C7.** SignOut is idempotent-negative: for a visitor whose open-visit
query returns exactly one visit, the first call answers 200 and sets that
visit's exit_time (other visit rows are untouched), and an immediate second
call answers 404 and changes nothing, because no open visit remains. -/
theorem claim_C7 (db : DB) (visitorId : Nat) (v : Visit) (now now2 : Int)
    (hopen : openVisitsOf db visitorId = [v]) :
    (exitVisitorHandler db visitorId now).2.status = 200
    ∧ ({ v with exit_time := some now } : Visit)
        ∈ (exitVisitorHandler db visitorId now).1.visits
    ∧ (∀ w ∈ db.visits, w.id ≠ v.id →
        w ∈ (exitVisitorHandler db visitorId now).1.visits)
    ∧ (exitVisitorHandler (exitVisitorHandler db visitorId now).1
        visitorId now2).2.status = 404
    ∧ (exitVisitorHandler (exitVisitorHandler db visitorId now).1 visitorId now2).1
        = (exitVisitorHandler db visitorId now).1 := by
  have hsel : selectLatest (openVisitsOf db visitorId) = some v := by
    rw [hopen]; rfl
  have hvmem : v ∈ db.visits := by
    have hm : v ∈ openVisitsOf db visitorId := by rw [hopen]; exact List.mem_singleton.mpr rfl
    exact (List.mem_filter.mp hm).1
  have huniq : ∀ w, w ∈ openVisitsOf db visitorId → w = v := by
    intro w hw; rw [hopen] at hw; simpa using hw
  have hfst : (exitVisitorHandler db visitorId now).1
      = { db with
          visits := db.visits.map
            (fun w => if w.id == v.id then { w with exit_time := some now } else w) } := by
    simp only [exitVisitorHandler, hsel]
  have hopen2 : openVisitsOf (exitVisitorHandler db visitorId now).1 visitorId = [] := by
    rw [hfst]
    simp only [openVisitsOf]
    rw [List.filter_eq_nil_iff]
    intro a ha
    obtain ⟨w, hw, rfl⟩ := List.mem_map.mp ha
    by_cases hidw : (w.id == v.id) = true
    · rw [if_pos hidw]
      simp
    · rw [if_neg hidw]
      intro hpred
      refine hidw ?_
      have hwv : w = v := huniq w (List.mem_filter.mpr ⟨hw, by simpa using hpred⟩)
      simp [hwv]
  have hsel2 : selectLatest
      (openVisitsOf (exitVisitorHandler db visitorId now).1 visitorId) = none := by
    rw [hopen2]; rfl
  have hstatus : (exitVisitorHandler db visitorId now).2.status = 200 := by
    simp only [exitVisitorHandler, hsel]
  set dbA := (exitVisitorHandler db visitorId now).1 with hA
  refine ⟨hstatus, ?_, ?_, ?_, ?_⟩
  · rw [hfst]
    exact List.mem_map.mpr ⟨v, hvmem, by simp⟩
  · intro w hw hne
    rw [hfst]
    refine List.mem_map.mpr ⟨w, hw, ?_⟩
    rw [if_neg (by simpa using hne)]
  · simp only [exitVisitorHandler, hsel2]
  · simp only [exitVisitorHandler, hsel2]

/-- Concrete dataset for the C7 witness: one visitor with one open visit. -/
def dbC7 : DB :=
  { visitors := [{ id := 1, first_name := "Solo", last_name := "Guest",
                   photo_path := none, is_banned := false }],
    visits := [{ id := 7, visitor_id := 1, entry_time := 50, exit_time := none }],
    dependents := [], audit_logs := [],
    nextVisitorId := 2, nextVisitId := 8, nextDependentId := 1 }

/-- Witness for C7 on `dbC7`: sign-out answers 200 and closes the visit;
signing out again answers 404 without changing anything. -/
theorem claim_C7_witness :
    (exitVisitorHandler dbC7 1 99).2.status = 200
    ∧ ({ id := 7, visitor_id := 1, entry_time := 50, exit_time := some 99 } : Visit)
        ∈ (exitVisitorHandler dbC7 1 99).1.visits
    ∧ (exitVisitorHandler (exitVisitorHandler dbC7 1 99).1 1 120).2.status = 404
    ∧ (exitVisitorHandler (exitVisitorHandler dbC7 1 99).1 1 120).1
        = (exitVisitorHandler dbC7 1 99).1 := by
  have h := claim_C7 dbC7 1 { id := 7, visitor_id := 1, entry_time := 50, exit_time := none }
    99 120 (by decide)
  exact ⟨h.1, h.2.1, h.2.2.2.1, h.2.2.2.2⟩

/-- **C6 counterexample.** The empty string is a `pastEntryTime` input that
does not parse as a valid timestamp (`new Date("")` is invalid), yet the
route rejects it through the missing-field branch: a 400, but with a
different message than the InvalidTimeRangeError one the claim requires for
every unparsable input. -/
theorem claim_C6_counterexample :
    recordMissedVisitValidation 1 "" none 1000 = .rejected 400 missingFieldMessage
    ∧ missingFieldMessage ≠ invalidTimeMessage := by
  refine ⟨rfl, by decide⟩

/-- **C6 (amended).** For every present (non-empty) `pastEntryTime` and
truthy visitor id: an unparsable timestamp and a parsed timestamp not
strictly earlier than the current time are both rejected with status 400
and the one shared InvalidTimeRangeError message, before the handler's
database phase; a parsed timestamp strictly earlier than the current time
passes validation and enters the database phase with exactly those entry
and exit instants. -/
theorem claim_C6 (visitorId : Nat) (raw : String) (parsed : Option Int) (now : Int)
    (hvid : visitorId ≠ 0) (hraw : raw ≠ "") :
    (parsed = none →
      recordMissedVisitValidation visitorId raw parsed now = .rejected 400 invalidTimeMessage)
    ∧ (∀ t, parsed = some t → now ≤ t →
        recordMissedVisitValidation visitorId raw parsed now
          = .rejected 400 invalidTimeMessage)
    ∧ (∀ t, parsed = some t → t < now →
        recordMissedVisitValidation visitorId raw parsed now = .proceeded t now) := by
  have h1 : (visitorId == 0 || raw == "") = false := by
    simp [hvid, hraw]
  refine ⟨?_, ?_, ?_⟩
  · rintro rfl
    simp [recordMissedVisitValidation, h1]
  · rintro t rfl hge
    simp [recordMissedVisitValidation, h1, hge]
  · rintro t rfl hlt
    simp [recordMissedVisitValidation, h1, not_le.mpr hlt]

/-- Witness for C6: concrete rejections (unparsable, and future-dated) with
the shared message, and a concrete strictly-earlier pass. -/
theorem claim_C6_witness :
    recordMissedVisitValidation 1 "abc" none 1000 = .rejected 400 invalidTimeMessage
    ∧ recordMissedVisitValidation 1 "x" (some 2000) 1000
        = .rejected 400 invalidTimeMessage
    ∧ recordMissedVisitValidation 1 "x" (some 500) 1000 = .proceeded 500 1000 :=
  ⟨(claim_C6 1 "abc" none 1000 (by decide) (by decide)).1 rfl,
   (claim_C6 1 "x" (some 2000) 1000 (by decide) (by decide)).2.1 2000 rfl (by norm_num),
   (claim_C6 1 "x" (some 500) 1000 (by decide) (by decide)).2.2 500 rfl (by norm_num)⟩

/-- **C8.** The history date filter is inclusive on entry_time with
end_date expanded to end of day: with both bounds given a row passes iff
its entry_time lies in [startDate, endDate + 23:59:59.999]; and at the
spec's concrete instance (start_date = end_date = 2025-01-01) the visit at
2025-01-01T23:00:00Z is included while the one at 2025-01-02T00:00:01Z is
excluded. -/
theorem claim_C8 :
    (∀ s e t : Int, historyDateFilter (some s) (some e) t = true
        ↔ s ≤ t ∧ t ≤ e + 86399999)
    ∧ (∀ s t : Int, historyDateFilter (some s) none t = true ↔ s ≤ t)
    ∧ (∀ e t : Int, historyDateFilter none (some e) t = true ↔ t ≤ e + 86399999)
    ∧ historyIncludesVisit (some (utcMs 2025 1 1 0 0 0 0)) (some (utcMs 2025 1 1 0 0 0 0))
        { id := 1, visitor_id := 1, entry_time := utcMs 2025 1 1 23 0 0 0,
          exit_time := none } = true
    ∧ historyIncludesVisit (some (utcMs 2025 1 1 0 0 0 0)) (some (utcMs 2025 1 1 0 0 0 0))
        { id := 2, visitor_id := 1, entry_time := utcMs 2025 1 2 0 0 1 0,
          exit_time := none } = false := by
  refine ⟨?_, ?_, ?_, by decide, by decide⟩
  · intro s e t
    simp [historyDateFilter, endOfDayMs]
  · intro s t
    simp [historyDateFilter]
  · intro e t
    simp [historyDateFilter, endOfDayMs]

/-- Witness for C8: the general filter characterisation evaluated at a
concrete boundary point (the last included millisecond of the end day). -/
theorem claim_C8_witness :
    historyDateFilter (some 0) (some 0) 86399999 = true
      ↔ 0 ≤ (86399999 : Int) ∧ (86399999 : Int) ≤ 0 + 86399999 :=
  claim_C8.1 0 0 86399999

/-- Concrete dataset for C10: one visitor with id 1. -/
def dbC10 : DB :=
  { visitors := [{ id := 1, first_name := "Upd", last_name := "User",
                   photo_path := none, is_banned := false }],
    visits := [], dependents := [], audit_logs := [],
    nextVisitorId := 2, nextVisitId := 1, nextDependentId := 1 }

/-- **C10** (the claim is false of the shipped program; this theorem
evaluates the route at the failing input).  The parse fallback itself is
real: the unparseable non-empty string becomes one pending dependent with
the raw string as full_name and null age (update_visitor_details.js lines
36-47).  But the repository `executeQuery` returns the recordset array
itself, so the route's `visitorCheck.recordset.length` read (line 60)
throws: the call answers 500 after ROLLBACK and inserts neither the visit
nor that dependent — it does fail on that input, like on every other.
Against the result-object contract the route assumes (and its own tests
mock) it behaves as the claim states: 201, exactly one dependent row with
the raw name and null age on the new visit, while Register with a
pool-bearing service aborts its transaction on the same dependents field. -/
theorem claim_C10 :
    updateParseDependents (.invalid "not json")
        = [{ full_name := "not json", age := none }]
    ∧ (updateVisitorHandler azureResultCarriesRecordset dbC10 99 1
        (.invalid "not json")).2
        = .serverError ("Transaction failed: " ++ undefinedLengthReadError)
    ∧ (updateVisitorHandler azureResultCarriesRecordset dbC10 99 1
        (.invalid "not json")).2.httpStatus = 500
    ∧ (updateVisitorHandler azureResultCarriesRecordset dbC10 99 1
        (.invalid "not json")).1 = dbC10
    ∧ (updateVisitorHandler true dbC10 99 1 (.invalid "not json")).2 = .created 1
    ∧ (updateVisitorHandler true dbC10 99 1 (.invalid "not json")).1.dependents
        = [{ id := 1, full_name := "not json", age := none, visit_id := 1 }]
    ∧ ({ id := 1, visitor_id := 1, entry_time := 99, exit_time := none } : Visit)
        ∈ (updateVisitorHandler true dbC10 99 1 (.invalid "not json")).1.visits
    ∧ (registerVisitorHandler true dbC10 99
        { first_name := "New", last_name := "Name", photo_path := none,
          additional_dependents := .invalid "not json" }).2
        = .serverError "Invalid dependents JSON format."
    ∧ (registerVisitorHandler true dbC10 99
        { first_name := "New", last_name := "Name", photo_path := none,
          additional_dependents := .invalid "not json" }).1 = dbC10 := by
  decide

end VisitorApp
